import Mathlib

/-!
Verification of the InvenTree plugin creator (plugin_creator/cli.py,
plugin_creator/frontend.py) against its natural-language specification.

Python strings are modelled as lists of Unicode code points (`List Nat`);
`str.lower()` is modelled on the ASCII range (code points 65-90 map to
97-122), which is where all identifiers manipulated by the tool live.
Side effects (subprocess invocations, directory removal) are modelled as
explicit effect traces, and the file system as the list of existing paths.
-/

namespace PluginCreator

/-- Python strings as lists of Unicode code points. -/
abbrev PyStr := List Nat

/-- Code points of a Lean string literal, for writing concrete examples. -/
def codes (s : String) : PyStr := s.toList.map Char.toNat

/-- Python `s.replace(a, b)` for single-character `a` and `b`: with a
one-character pattern, substring replacement is character-wise substitution. -/
def pyReplace (a b : Nat) (s : PyStr) : PyStr :=
  s.map (fun c => if c = a then b else c)

/-- Python `s.replace(a, "")` for a single-character `a`: every occurrence
of `a` is deleted. -/
def pyDelete (a : Nat) (s : PyStr) : PyStr :=
  s.filter (fun c => c ≠ a)

/-- Python `str.lower()` on one code point, modelled on the ASCII range:
65-90 (A-Z) map to 97-122 (a-z), everything else is unchanged. -/
def pyLowerChar (c : Nat) : Nat :=
  if 65 ≤ c ∧ c ≤ 90 then c + 32 else c

/-- Python `str.lower()` over a whole string. -/
def pyLower (s : PyStr) : PyStr := s.map pyLowerChar

/-- Python whitespace test for `str.strip()` (space, tab, LF, VT, FF, CR). -/
def isPySpace (c : Nat) : Bool :=
  c = 32 || c = 9 || c = 10 || c = 11 || c = 12 || c = 13

/-- Python `str.strip()`: drop leading and trailing whitespace. -/
def pyStrip (s : PyStr) : PyStr :=
  ((s.dropWhile isPySpace).reverse.dropWhile isPySpace).reverse

/-! ## Name/Slug deriver (cli.py, gather_info lines 51-56)

`plugin_name  = title.replace(" ", "")`
`plugin_slug  = title.replace(" ", "-").lower()`
`package_name = plugin_slug.replace("-", "_")` -/

/-- cli.py line 51: the plugin name is the title with spaces removed. -/
def plugin_name (title : PyStr) : PyStr := pyDelete 32 title

/-- cli.py line 55: the slug is the title with spaces (32) replaced by
hyphens (45), lowercased. -/
def plugin_slug (title : PyStr) : PyStr := pyLower (pyReplace 32 45 title)

/-- cli.py line 56: the package name is the slug with hyphens (45)
replaced by underscores (95). -/
def package_name (title : PyStr) : PyStr := pyReplace 45 95 (plugin_slug title)

/-- The package name exactly as the spec's words describe it for C1:
lowercase(T) with each space replaced by an underscore and no other
characters altered. -/
def spec_package_name (title : PyStr) : PyStr := pyReplace 32 95 (pyLower title)

/-- Per-code-point composition of the actual derivation pipeline. -/
def packageChar (c : Nat) : Nat :=
  let d := pyLowerChar (if c = 32 then 45 else c)
  if d = 45 then 95 else d

lemma package_name_eq_map (t : PyStr) : package_name t = t.map packageChar := by
  simp only [package_name, plugin_slug, pyLower, pyReplace, List.map_map]
  rfl

lemma packageChar_amended (c : Nat) :
    packageChar c =
      (fun d => if d = 32 then 95 else d)
        ((fun d => if d = 45 then 95 else d) (pyLowerChar c)) := by
  simp only [packageChar, pyLowerChar]
  split_ifs <;> omega

/-- C1 — The claim fails for titles that contain a hyphen: the title
"A-B" yields package name "a_b" (the hyphen also becomes an underscore),
while lowercase with only spaces replaced would give "a-b". -/
theorem C1_counterexample :
    package_name (codes "A-B") ≠ spec_package_name (codes "A-B") := by
  decide

/-- C1 (amended) — For every input title T, the derived package name
equals lowercase(T) with each space and each hyphen replaced by an
underscore (no other characters altered), computed via the intermediate
hyphenated slug, which is lowercase(T) with spaces replaced by hyphens. -/
theorem C1_amended (t : PyStr) :
    package_name t = pyReplace 32 95 (pyReplace 45 95 (pyLower t)) ∧
    plugin_slug t = pyLower (pyReplace 32 45 t) := by
  refine ⟨?_, rfl⟩
  rw [package_name_eq_map]
  simp only [pyReplace, pyLower, List.map_map]
  apply List.map_congr_left
  intro c _
  exact packageChar_amended c

/-- C9 — The title "Custom Plugin" produces slug "custom-plugin" and
package name "custom_plugin". -/
theorem C9_custom_plugin :
    plugin_slug (codes "Custom Plugin") = codes "custom-plugin" ∧
    package_name (codes "Custom Plugin") = codes "custom_plugin" := by
  decide

/-! ## Frontend module (frontend.py) -/

/-- frontend.py `enforced_packages`: packages that are always installed. -/
def enforced_packages : List PyStr :=
  [codes "react", codes "react-dom", codes "@mantine/core"]

/-- frontend.py `available_packages`: optional packages offered to the user. -/
def available_packages : List PyStr :=
  [codes "@mantine/hooks", codes "@mantine/charts", codes "@tabler/icons-react"]

/-- frontend.py `frontend_features`: feature key with its display title. -/
def frontend_features : List (String × String) :=
  [("dashboard", "Custom dashboard items"), ("panel", "Custom panel items")]

/-- frontend.py `no_features`: every feature key mapped to False. -/
def no_features : List (String × Bool) :=
  frontend_features.map (fun p => (p.1, false))

/-- frontend.py `all_features`: every feature key mapped to True. -/
def all_features : List (String × Bool) :=
  frontend_features.map (fun p => (p.1, true))

/-- frontend.py `select_features`: the checkbox returns the chosen display
titles; the keys whose title was chosen are selected, and the result maps
every feature key to whether it was selected. -/
def select_features (chosenTitles : List String) : List (String × Bool) :=
  let selectedKeys :=
    (frontend_features.filter (fun p => p.2 ∈ chosenTitles)).map (fun p => p.1)
  frontend_features.map (fun p => (p.1, p.1 ∈ selectedKeys))

/-! ## Context model

The Python context is a dict from string keys to values: strings, the
nested frontend dict `{enabled, packages, features}`, and the nested
mixins dict `{mixin_list}`.  Nested dicts of fixed shape are modelled as
dedicated constructors. -/

/-- A context value: a string, the frontend sub-dict, or the mixins sub-dict. -/
inductive CVal where
  | str : PyStr → CVal
  | fe : Bool → List PyStr → List (String × Bool) → CVal
  | mix : List PyStr → CVal
deriving DecidableEq

/-- The context: a Python dict modelled as an insertion-ordered association
list. -/
abbrev Ctx := List (String × CVal)

/-- Python dict assignment `d[k] = v`: overwrite in place if the key is
present, otherwise append. -/
def dict_set (d : Ctx) (k : String) (v : CVal) : Ctx :=
  match d with
  | [] => [(k, v)]
  | (k₀, v₀) :: rest =>
      if k₀ = k then (k, v) :: rest else (k₀, v₀) :: dict_set rest k v

/-- Python dict lookup `d.get(k)` / `d[k]` as an option. -/
def dict_get (d : Ctx) (k : String) : Option CVal :=
  match d with
  | [] => none
  | (k₀, v₀) :: rest => if k₀ = k then some v₀ else dict_get rest k

lemma dict_get_set_self (d : Ctx) (k : String) (v : CVal) :
    dict_get (dict_set d k v) k = some v := by
  induction d with
  | nil => simp [dict_set, dict_get]
  | cons p rest ih =>
    by_cases h : p.1 = k <;> simp [dict_set, dict_get, h, ih]

lemma dict_get_set_ne (d : Ctx) (k k' : String) (v : CVal) (h : k' ≠ k) :
    dict_get (dict_set d k' v) k = dict_get d k := by
  induction d with
  | nil => simp [dict_set, dict_get, h]
  | cons p rest ih =>
    by_cases h₀ : p.1 = k' <;> simp [dict_set, dict_get, h₀, h, ih]

/-- Python `d.update(e)`: assign every key of `e` into `d` in order. -/
def dict_update (d e : Ctx) : Ctx :=
  e.foldl (fun acc p => dict_set acc p.1 p.2) d

/-! ## gather_info (cli.py lines 33-129)

Interactive prompts are modelled by an `Answers` record holding the value
each prompt returns; the license text is produced by the external license
library, modelled as an uninterpreted rendering function
(key → author name → author email → text). -/

/-- The answers returned by the interactive prompts of one gather_info run. -/
structure Answers where
  title : PyStr
  description : PyStr
  authorName : PyStr
  authorEmail : PyStr
  projectUrl : PyStr
  licenseKey : PyStr
  mixinList : List PyStr
  addUi : Bool
  uiPackages : List PyStr
  uiFeatureTitles : List String
  ciMode : PyStr
deriving DecidableEq

/-- cli.py `gather_info`: strip and store the textual answers, derive
plugin_name / plugin_slug / package_name from the stripped title, render
the license text, store the mixin list, then either the selected frontend
configuration (toggle accepted) or the disabled one with empty packages
and `no_features` (toggle declined), and finally the CI mode. -/
def gather_info (ctx : Ctx) (renderLicense : PyStr → PyStr → PyStr → PyStr)
    (ans : Answers) : Ctx :=
  let title := pyStrip ans.title
  let c := dict_set ctx "plugin_title" (.str title)
  let c := dict_set c "plugin_description" (.str (pyStrip ans.description))
  let c := dict_set c "plugin_name" (.str (plugin_name title))
  let c := dict_set c "plugin_slug" (.str (plugin_slug title))
  let c := dict_set c "package_name" (.str (package_name title))
  let name := pyStrip ans.authorName
  let email := pyStrip ans.authorEmail
  let c := dict_set c "author_name" (.str name)
  let c := dict_set c "author_email" (.str email)
  let c := dict_set c "project_url" (.str (pyStrip ans.projectUrl))
  let c := dict_set c "license_key" (.str ans.licenseKey)
  let c := dict_set c "license_text" (.str (renderLicense ans.licenseKey name email))
  let c := dict_set c "plugin_mixins" (.mix ans.mixinList)
  let c := dict_set c "frontend"
    (if ans.addUi then .fe true ans.uiPackages (select_features ans.uiFeatureTitles)
     else .fe false [] no_features)
  dict_set c "ci_support" (.str ans.ciMode)

/-! ## Config persistence -/

/-- Modelled from the spec: the `config` module is not under src/.
`save_config` serializes the full context to the single config file,
overwriting it unconditionally; the file system state is the optional
stored mapping. -/
def save_config (ctx : Ctx) (fileState : Option Ctx) : Option Ctx :=
  match fileState with
  | _ => some ctx

/-- Modelled from the spec: the `config` module is not under src/.
`load_config` reads the config file if present and parses it as a flat
mapping; when the file is absent it returns the empty mapping, not an
error. -/
def load_config (fileState : Option Ctx) : Ctx :=
  match fileState with
  | none => []
  | some stored => stored

/-! ## The context-building phase of main (cli.py lines 162-170) -/

/-- cli.py main, context phase: start from the template defaults, overlay
the stored config, record the tool version, then run gather_info unless
`--default` was given (in which case no prompt is consulted).  The
defaults file (template/cookiecutter.json) and the version constant are
external data, passed in as parameters. -/
def main_context (defaults stored : Ctx) (version : PyStr) (useDefault : Bool)
    (renderLicense : PyStr → PyStr → PyStr → PyStr) (ans : Answers) : Ctx :=
  let ctx := dict_update defaults stored
  let ctx := dict_set ctx "plugin_creator_version" (.str version)
  if useDefault then ctx else gather_info ctx renderLicense ans

/-- C4 — With `--default`, the resulting context does not depend on any
interactive answer or on the license renderer (no prompt is consulted),
and it is the deterministic function of the stored config and the
defaults alone: overlay the stored config on the defaults and record the
version. -/
theorem C4_default_deterministic (defaults stored : Ctx) (version : PyStr)
    (rl rl' : PyStr → PyStr → PyStr → PyStr) (ans ans' : Answers) :
    main_context defaults stored version true rl ans =
      main_context defaults stored version true rl' ans' ∧
    main_context defaults stored version true rl ans =
      dict_set (dict_update defaults stored) "plugin_creator_version"
        (.str version) := by
  constructor <;> rfl

/-- C7 — When the User Interface toggle is declined, the frontend field of
the gathered context is the disabled configuration: enabled = false, no
packages, and every known feature (dashboard, panel) mapped to false;
moreover the dependent package/feature prompts are never consulted (the
result does not depend on their answers). -/
theorem C7_decline_frontend (ctx : Ctx)
    (rl : PyStr → PyStr → PyStr → PyStr) (ans : Answers)
    (h : ans.addUi = false) :
    dict_get (gather_info ctx rl ans) "frontend" =
      some (.fe false [] [("dashboard", false), ("panel", false)]) ∧
    (∀ pkgs titles,
      gather_info ctx rl { ans with uiPackages := pkgs, uiFeatureTitles := titles } =
        gather_info ctx rl ans) := by
  constructor
  · simp only [gather_info, h]
    rw [dict_get_set_ne _ _ _ _ (by decide), dict_get_set_self]
    rfl
  · intro pkgs titles
    simp [gather_info, h]

/-- Stub license renderer, used to instantiate theorems at concrete inputs. -/
def rlStub : PyStr → PyStr → PyStr → PyStr := fun _ _ _ => []

/-- Concrete answers with the User Interface toggle declined. -/
def ansNoUi : Answers :=
  Answers.mk (codes " My Plugin ") (codes "A demo plugin") (codes "Ada")
    (codes "ada@example.org") (codes "") (codes "MIT") [codes "SettingsMixin"]
    false [] [] (codes "github")

/-- Witness for C7 at a concrete declined-toggle run. -/
theorem C7_witness :
    ansNoUi.addUi = false ∧
    dict_get (gather_info [] rlStub ansNoUi) "frontend" =
      some (.fe false [] [("dashboard", false), ("panel", false)]) :=
  ⟨rfl, (C7_decline_frontend [] rlStub ansNoUi rfl).1⟩

/-- C8 — Saving a context to the config file and loading it back yields a
mapping with the same value at every key (in particular its keys are a
subset of — here equal to — the saved keys), and loading when no config
file exists yields the empty mapping rather than an error. -/
theorem C8_config_roundtrip (ctx : Ctx) (fileState : Option Ctx) :
    (∀ k, dict_get (load_config (save_config ctx fileState)) k = dict_get ctx k) ∧
    (load_config (save_config ctx fileState)).map Prod.fst ⊆ ctx.map Prod.fst ∧
    load_config none = [] := by
  exact ⟨fun k => rfl, fun x hx => hx, rfl⟩

/-! ## Paths and filesystem model -/

/-- Python `os.path.join(a, b)` on Posix for one extra component: an
absolute `b` wins; otherwise concatenate, inserting a separator unless
`a` is empty or already ends with one. -/
def osPathJoin (a b : PyStr) : PyStr :=
  if b.head? = some 47 then b
  else if a = [] ∨ a.getLast? = some 47 then a ++ b
  else a ++ 47 :: b

/-- The frontend subtree of a generated plugin directory
(`os.path.join(plugin_dir, "frontend")`, frontend.py lines 96 and 114). -/
def frontend_dir_of (plugin_dir : PyStr) : PyStr :=
  osPathJoin plugin_dir (codes "frontend")

/-- cli.py lines 177-178: the plugin directory is
`os.path.join(output_dir, context.plugin_name)`. -/
def main_plugin_dir (output_dir title : PyStr) : PyStr :=
  osPathJoin output_dir (plugin_name title)

/-- Boolean test: does `s` start with `pre`? -/
def pyBeginsWith (pre s : PyStr) : Bool := s.take pre.length == pre

/-- A path `p` lies in the subtree rooted at `root`: it is `root` itself
or begins with `root` followed by a separator. -/
def pathIsUnder (root p : PyStr) : Bool :=
  p == root || pyBeginsWith (root ++ [47]) p

/-- Effects performed by cleanup: an external command (argv, optional
working directory) or the devops cleanup step. -/
inductive Eff where
  | runCmd (argv : List PyStr) (cwd : Option PyStr)
  | ciCleanup (ci : CVal) (dir : PyStr)
deriving DecidableEq

/-- Python errors raised by the modelled code. -/
inductive PyError where
  | typeError
  | keyError
deriving DecidableEq

/-- Modelled from the spec: `devops.cleanup_devops_files` (the `devops`
module is not under src/) deletes the unselected CI configuration
subtree of the generated directory; it never creates paths. -/
def ci_cleanup_sem (ci : CVal) (dir : PyStr) (fs : List PyStr) : List PyStr :=
  if ci = .str (codes "none") then
    fs.filter (fun p => !(pathIsUnder (osPathJoin dir (codes ".github")) p))
  else fs

/-- Effect semantics on the set of existing paths: the devops cleanup
acts as modelled above, `rm -r d` removes the subtree rooted at `d`, and
other commands (npm) do not change the tracked path set. -/
def runFsEff (fs : List PyStr) (e : Eff) : List PyStr :=
  match e with
  | .ciCleanup ci dir => ci_cleanup_sem ci dir fs
  | .runCmd argv _ =>
      match argv with
      | [r, fl, d] =>
          if r = codes "rm" ∧ fl = codes "-r" then
            fs.filter (fun p => !(pathIsUnder d p))
          else fs
      | _ => fs

/-- Run a trace of effects over the path set. -/
def run_effs (fs : List PyStr) (effs : List Eff) : List PyStr :=
  effs.foldl runFsEff fs

/-! ## frontend.remove_frontend and frontend.update_frontend -/

/-- frontend.py `remove_frontend` lines 93-100: if the frontend directory
exists, run `rm -r` on it; otherwise do nothing (no error). -/
def remove_frontend (plugin_dir : PyStr) (fs : List PyStr) : List Eff :=
  if frontend_dir_of plugin_dir ∈ fs then
    [Eff.runCmd [codes "rm", codes "-r", frontend_dir_of plugin_dir] none]
  else []

/-- frontend.py `update_frontend` lines 103-120: the enforced packages,
plus the additional ones when that (default-None) argument is truthy,
are each installed with `npm install` in the frontend directory, then a
single `npm update` runs. -/
def update_frontend (plugin_dir : PyStr) (additional_packages : Option (List PyStr)) :
    List Eff :=
  let packages :=
    match additional_packages with
    | none => enforced_packages
    | some l => if l = [] then enforced_packages else enforced_packages ++ l
  let fdir := frontend_dir_of plugin_dir
  packages.map (fun pkg => Eff.runCmd [codes "npm", codes "install", pkg] (some fdir))
    ++ [Eff.runCmd [codes "npm", codes "update"] (some fdir)]

/-- Execution of update_frontend's commands with the exit status of each
external process supplied by the oracle `exits`: the code discards every
`subprocess.run` return value, so execution proceeds through the whole
command list whatever the statuses are. -/
def update_frontend_run (cmds : List Eff) (exits : Nat → Int) : List (Eff × Int) :=
  match cmds with
  | [] => []
  | c :: rest => (c, exits 0) :: update_frontend_run rest (fun i => exits (i + 1))

lemma update_frontend_run_fst (cmds : List Eff) :
    ∀ exits, (update_frontend_run cmds exits).map Prod.fst = cmds := by
  induction cmds with
  | nil => intro exits; rfl
  | cons c rest ih => intro exits; simp [update_frontend_run, ih]

/-- Is this effect an invocation of the external package manager? -/
def is_npm_cmd (e : Eff) : Bool :=
  match e with
  | .runCmd (c :: _) _ => c == codes "npm"
  | _ => false

/-! ## cleanup (cli.py lines 131-146) -/

/-- cli.py `cleanup`: run the devops cleanup, then, when the frontend is
enabled and installation is not suppressed, call
`frontend.update_frontend(plugin_dir, features, packages)` — a call that
passes three positional arguments to the two-parameter function
`update_frontend(plugin_dir, additional_packages=None)`, so Python
raises TypeError at the call site, after the devops step and before any
npm command; when the frontend is disabled, remove the frontend subtree.
A missing context key raises KeyError, a non-dict frontend entry a
TypeError. -/
def cleanup (plugin_dir : PyStr) (ctx : Ctx) (skip_install : Bool)
    (fs : List PyStr) : List Eff × Option PyError :=
  match dict_get ctx "ci_support" with
  | none => ([], some .keyError)
  | some ci =>
    let e₁ := Eff.ciCleanup ci plugin_dir
    let fs₁ := runFsEff fs e₁
    match dict_get ctx "frontend" with
    | none => ([e₁], some .keyError)
    | some (.fe enabled _ _) =>
        if enabled then
          if skip_install then ([e₁], none)
          else ([e₁], some .typeError)
        else ([e₁] ++ remove_frontend plugin_dir fs₁, none)
    | some _ => ([e₁], some .typeError)

lemma pathIsUnder_self (d : PyStr) : pathIsUnder d d = true := by
  simp [pathIsUnder]

lemma runFsEff_rm (fs : List PyStr) (d : PyStr) :
    runFsEff fs (Eff.runCmd [codes "rm", codes "-r", d] none) =
      fs.filter (fun p => !(pathIsUnder d p)) := by
  simp [runFsEff]

lemma is_npm_cmd_remove_frontend (d : PyStr) (fs : List PyStr) :
    ∀ e ∈ remove_frontend d fs, is_npm_cmd e = false := by
  intro e he
  unfold remove_frontend at he
  split at he
  · rw [List.mem_singleton] at he
    subst he
    rfl
  · cases he

/-- A concrete context with the frontend enabled (one selected package,
all features on) and CI mode "none". -/
def ctxEnabled : Ctx :=
  [("ci_support", .str (codes "none")),
   ("frontend", .fe true [codes "@mantine/hooks"]
      [("dashboard", true), ("panel", true)])]

/-- C2 — code bug: at a context with the frontend enabled and
installation not suppressed, cleanup performs only the devops step and
then fails with TypeError, because cli.py lines 138-144 pass three
positional arguments to the two-parameter
`update_frontend(plugin_dir, additional_packages=None)`; no `npm
install` and no `npm update` command is ever issued, contrary to the
claimed install sequence. -/
theorem C2_cleanup_typeerror :
    cleanup (codes "/out/MyPlugin") ctxEnabled false [codes "/out/MyPlugin"] =
      ([Eff.ciCleanup (.str (codes "none")) (codes "/out/MyPlugin")],
        some PyError.typeError) ∧
    ∀ e ∈ (cleanup (codes "/out/MyPlugin") ctxEnabled false
        [codes "/out/MyPlugin"]).1, is_npm_cmd e = false := by
  constructor
  · rfl
  · decide

/-- C3 — When the frontend feature is disabled, cleanup reports no error
and the frontend subtree of the plugin directory is absent afterwards,
whether or not it existed beforehand (the removal is guarded by an
existence check, so an already-absent subtree is tolerated). -/
theorem C3_frontend_removed (plugin_dir : PyStr) (ctx : Ctx) (skip : Bool)
    (fs : List PyStr) (ci : CVal) (pkgs : List PyStr)
    (feats : List (String × Bool))
    (hci : dict_get ctx "ci_support" = some ci)
    (hfe : dict_get ctx "frontend" = some (.fe false pkgs feats)) :
    (cleanup plugin_dir ctx skip fs).2 = none ∧
    frontend_dir_of plugin_dir ∉
      run_effs fs (cleanup plugin_dir ctx skip fs).1 := by
  simp only [cleanup, hci, hfe]
  refine ⟨rfl, ?_⟩
  simp only [run_effs, List.cons_append, List.nil_append, List.foldl_cons]
  by_cases hm :
      frontend_dir_of plugin_dir ∈ runFsEff fs (Eff.ciCleanup ci plugin_dir)
  · simp only [remove_frontend, if_pos hm, List.foldl_cons, List.foldl_nil,
      runFsEff_rm]
    intro hmem
    have h₂ := (List.mem_filter.mp hmem).2
    rw [pathIsUnder_self] at h₂
    cases h₂
  · simp only [remove_frontend, if_neg hm, List.foldl_nil]
    exact hm

/-- A concrete context with the frontend disabled. -/
def ctxDisabled : Ctx :=
  [("ci_support", .str (codes "none")),
   ("frontend", .fe false [] [("dashboard", false), ("panel", false)])]

/-- Witness for C3 at a concrete disabled-frontend run whose frontend
directory exists beforehand. -/
theorem C3_witness :
    dict_get ctxDisabled "ci_support" = some (.str (codes "none")) ∧
    dict_get ctxDisabled "frontend" =
      some (.fe false [] [("dashboard", false), ("panel", false)]) ∧
    ((cleanup (codes "/out/P") ctxDisabled false
        [codes "/out/P", codes "/out/P/frontend"]).2 = none ∧
      frontend_dir_of (codes "/out/P") ∉
        run_effs [codes "/out/P", codes "/out/P/frontend"]
          (cleanup (codes "/out/P") ctxDisabled false
            [codes "/out/P", codes "/out/P/frontend"]).1) :=
  ⟨by decide, by decide,
    C3_frontend_removed (codes "/out/P") ctxDisabled false
      [codes "/out/P", codes "/out/P/frontend"]
      (.str (codes "none")) [] [("dashboard", false), ("panel", false)]
      (by decide) (by decide)⟩

/-- C5 — With `--skip-install`, cleanup issues no package-manager command
at all (no install, no update) for any context, reports no error, while
the rest of cleanup still runs: the devops (CI-file) step is still the
first effect, and when the frontend is disabled its subtree handling
still takes place. -/
theorem C5_skip_install (plugin_dir : PyStr) (ctx : Ctx) (fs : List PyStr)
    (ci : CVal) (enabled : Bool) (pkgs : List PyStr)
    (feats : List (String × Bool))
    (hci : dict_get ctx "ci_support" = some ci)
    (hfe : dict_get ctx "frontend" = some (.fe enabled pkgs feats)) :
    (cleanup plugin_dir ctx true fs).2 = none ∧
    (∀ e ∈ (cleanup plugin_dir ctx true fs).1, is_npm_cmd e = false) ∧
    (cleanup plugin_dir ctx true fs).1.head? =
      some (Eff.ciCleanup ci plugin_dir) ∧
    (enabled = false →
      (cleanup plugin_dir ctx true fs).1 =
        Eff.ciCleanup ci plugin_dir ::
          remove_frontend plugin_dir
            (runFsEff fs (Eff.ciCleanup ci plugin_dir))) := by
  simp only [cleanup, hci, hfe]
  cases enabled with
  | true =>
    refine ⟨rfl, ?_, rfl, by intro h; cases h⟩
    intro e he
    simp at he
    subst he
    rfl
  | false =>
    refine ⟨rfl, ?_, rfl, fun _ => rfl⟩
    intro e he
    simp only [List.cons_append, List.nil_append] at he
    rcases List.mem_cons.mp he with h | h
    · subst h
      rfl
    · exact is_npm_cmd_remove_frontend _ _ e h

/-- Witness for C5 at a concrete enabled-frontend run with
`--skip-install`. -/
theorem C5_witness :
    dict_get ctxEnabled "ci_support" = some (.str (codes "none")) ∧
    dict_get ctxEnabled "frontend" =
      some (.fe true [codes "@mantine/hooks"]
        [("dashboard", true), ("panel", true)]) ∧
    ((cleanup (codes "/out/P") ctxEnabled true [codes "/out/P"]).2 = none ∧
      (∀ e ∈ (cleanup (codes "/out/P") ctxEnabled true [codes "/out/P"]).1,
        is_npm_cmd e = false) ∧
      (cleanup (codes "/out/P") ctxEnabled true [codes "/out/P"]).1.head? =
        some (Eff.ciCleanup (.str (codes "none")) (codes "/out/P")) ∧
      (true = false →
        (cleanup (codes "/out/P") ctxEnabled true [codes "/out/P"]).1 =
          Eff.ciCleanup (.str (codes "none")) (codes "/out/P") ::
            remove_frontend (codes "/out/P")
              (runFsEff [codes "/out/P"]
                (Eff.ciCleanup (.str (codes "none")) (codes "/out/P"))))) :=
  ⟨by decide, by decide,
    C5_skip_install (codes "/out/P") ctxEnabled [codes "/out/P"]
      (.str (codes "none")) true [codes "@mantine/hooks"]
      [("dashboard", true), ("panel", true)] (by decide) (by decide)⟩

/-- C6 — update_frontend never consults the exit status of the external
package manager: whatever statuses the processes return (in particular a
non-zero one at any step), the executed command sequence is exactly one
`npm install` per enforced package followed by one per additional
package and then the single `npm update` — nothing is aborted, retried
or skipped. -/
theorem C6_exit_status_ignored (plugin_dir : PyStr)
    (additional : Option (List PyStr)) (exits : Nat → Int) (i : Nat)
    (h : exits i ≠ 0) :
    (update_frontend_run (update_frontend plugin_dir additional) exits).map
      Prod.fst = update_frontend plugin_dir additional ∧
    update_frontend plugin_dir additional =
      (enforced_packages ++ additional.getD []).map
        (fun pkg => Eff.runCmd [codes "npm", codes "install", pkg]
          (some (frontend_dir_of plugin_dir)))
        ++ [Eff.runCmd [codes "npm", codes "update"]
              (some (frontend_dir_of plugin_dir))] := by
  refine ⟨update_frontend_run_fst _ exits, ?_⟩
  cases additional with
  | none => rfl
  | some l =>
    cases l with
    | nil => rfl
    | cons p rest => rfl

/-- An exit-status oracle that reports failure for every process. -/
def exitsOne : Nat → Int := fun _ => 1

/-- Witness for C6 at a concrete run where every install step fails. -/
theorem C6_witness :
    exitsOne 0 ≠ 0 ∧
    (update_frontend_run
        (update_frontend (codes "/out/P") (some [codes "@mantine/hooks"]))
        exitsOne).map Prod.fst =
      update_frontend (codes "/out/P") (some [codes "@mantine/hooks"]) :=
  ⟨by decide,
    (C6_exit_status_ignored (codes "/out/P") (some [codes "@mantine/hooks"])
      exitsOne 0 (by decide)).1⟩

/-- C10 — The plugin_name is the title with every space removed and all
other characters unchanged (case preserved), and the plugin directory
used by main — where the project is generated and cleaned up — is the
subdirectory of the output directory named by that plugin_name. -/
theorem C10_plugin_name_dir (title out : PyStr)
    (h₁ : out ≠ []) (h₂ : out.getLast? ≠ some 47)
    (h₃ : (plugin_name title).head? ≠ some 47) :
    plugin_name title = title.filter (fun c => c ≠ 32) ∧
    main_plugin_dir out title = out ++ 47 :: plugin_name title := by
  refine ⟨rfl, ?_⟩
  have h₁₂ : ¬(out = [] ∨ out.getLast? = some 47) := by
    intro h
    rcases h with h | h
    · exact h₁ h
    · exact h₂ h
  simp only [main_plugin_dir, osPathJoin, if_neg h₃, if_neg h₁₂]

/-- Witness for C10 at a concrete title and output directory. -/
theorem C10_witness :
    (codes "/home/user" ≠ ([] : PyStr)) ∧
    (codes "/home/user").getLast? ≠ some 47 ∧
    (plugin_name (codes "My Plugin")).head? ≠ some 47 ∧
    (plugin_name (codes "My Plugin") =
        (codes "My Plugin").filter (fun c => c ≠ 32) ∧
      main_plugin_dir (codes "/home/user") (codes "My Plugin") =
        codes "/home/user" ++ 47 :: plugin_name (codes "My Plugin")) :=
  ⟨by decide, by decide, by decide,
    C10_plugin_name_dir (codes "My Plugin") (codes "/home/user")
      (by decide) (by decide) (by decide)⟩

end PluginCreator
